import Mathlib

/-!
Shallow embedding of the CRM automation core of this repository:
`automations.py` (the `CRMAutomation` status-change dispatcher and its five
workflow handlers) and `webhook_handler.py` (the Stripe and Make.com webhook
ingress functions).

Modelling conventions:
* The SQLite database is an explicit `Store` value; each SQL statement of the
  source becomes a pure function on `Store`.
* Every call a handler makes into a sender boundary (`_send_email`,
  `_send_discord`, `_trigger_make_webhook`) is recorded as an `Effect`; the
  configuration checks and transport failures inside those boundaries are
  external to the core, so an `Effect` means "the handler attempted this
  send / forward".
* Python floats (deal values, commissions) are embedded as exact rationals
  `Rat`; decimal literals such as `0.08` become `8/100`.
* Python `None` is `Option.none`; Python truthiness on strings-or-None is the
  `truthy` function below.
* The Stripe `PaymentLink.create` network call is an oracle `StripeEnv`
  supplied as a parameter: `some url` models a successful API response and
  `none` models a raised provider exception (which the source catches).
* `datetime.utcnow()` timestamps that appear only in outbound display
  payloads are omitted from `Effect`s, and the `:,.2f` money display format
  is abstracted by `fmtMoney`; neither influences any control flow.
-/

namespace CRM

/-- A row of the `leads` table, with the columns the automation core reads.
`lead_name` is `NOT NULL`; the other text columns are nullable. -/
structure Lead where
  lead_id : Int
  lead_name : String
  company_name : Option String
  contact_email : Option String
  contact_phone : Option String
  assigned_closer_id : Option Int
  assigned_producer_id : Option Int
  lead_status : String
  notes : Option String
  deriving Repr, DecidableEq

/-- A row of the `team_members` table. `name` is `NOT NULL`; `role` and
`email` are nullable. -/
structure TeamMember where
  member_id : Int
  name : String
  role : Option String
  email : Option String
  deriving Repr, DecidableEq

/-- A row of the `deals` table. `deal_value` is a REAL, embedded as `Rat`;
the payment link and the four commission columns are nullable until set. -/
structure Deal where
  deal_id : Int
  lead_id : Int
  deal_value : Rat
  payment_status : String
  stripe_payment_link : Option String
  commission_lead_gen : Option Rat
  commission_closer : Option Rat
  commission_producer : Option Rat
  total_commission : Option Rat
  deriving Repr, DecidableEq

/-- A row of the `calls_meetings` table (the columns the Call Booked
workflow reads). -/
structure CallMeeting where
  call_id : Int
  lead_id : Int
  call_datetime : String
  notes_summary : Option String
  deriving Repr, DecidableEq

/-- A row of the `activity_log` table (the columns `log_activity` inserts). -/
structure ActivityEntry where
  related_lead_id : Int
  activity_type : String
  performed_by_id : Int
  notes : String
  deriving Repr, DecidableEq

/-- The SQLite database state: the six tables the automation core touches. -/
structure Store where
  leads : List Lead
  deals : List Deal
  calls : List CallMeeting
  team_members : List TeamMember
  activity_log : List ActivityEntry
  config : List (String × String)
  deriving Repr, DecidableEq

/-- Python truthiness of a string-or-None value: `None` and `""` are falsy. -/
def truthy : Option String → Bool
  | none => false
  | some s => s != ""

/-- `dict.get(key)` on a string-keyed dict: first matching entry or `None`. -/
def dictGet (l : List (String × String)) (k : String) : Option String :=
  (l.find? (fun p => p.1 == k)).map (fun p => p.2)

/-- `self.config.get(key)`: lookup in the config snapshot loaded by
`_load_config`. -/
def configGet (st : Store) (k : String) : Option String :=
  dictGet st.config k

/-- The joined row produced by `_get_lead_data`: the lead's own columns plus
the LEFT-JOINed closer / producer / Lead-Generator name and email columns. -/
structure LeadData where
  lead : Lead
  closer_name : Option String
  closer_email : Option String
  producer_name : Option String
  producer_email : Option String
  lead_gen_name : Option String
  lead_gen_email : Option String
  deriving Repr, DecidableEq

/-- `_get_lead_data`: find the lead row by id; LEFT JOIN the assigned closer
and producer by `member_id`, and an arbitrary (first) team member whose
`role` is `'Lead Generator'`. Returns `none` when the lead does not exist. -/
def getLeadData (st : Store) (lead_id : Int) : Option LeadData :=
  match st.leads.find? (fun l => l.lead_id == lead_id) with
  | none => none
  | some l =>
    let closer := l.assigned_closer_id.bind
      (fun i => st.team_members.find? (fun m => m.member_id == i))
    let producer := l.assigned_producer_id.bind
      (fun i => st.team_members.find? (fun m => m.member_id == i))
    let lg := st.team_members.find? (fun m => m.role == some "Lead Generator")
    some { lead := l
           closer_name := closer.map (fun m => m.name)
           closer_email := closer.bind (fun m => m.email)
           producer_name := producer.map (fun m => m.name)
           producer_email := producer.bind (fun m => m.email)
           lead_gen_name := lg.map (fun m => m.name)
           lead_gen_email := lg.bind (fun m => m.email) }

/-- `SELECT ... FROM deals WHERE lead_id = ? ORDER BY deal_id DESC LIMIT 1`:
the deal of this lead with the greatest `deal_id`. -/
def latestDealFor (deals : List Deal) (lid : Int) : Option Deal :=
  deals.foldl
    (fun acc d =>
      if d.lead_id = lid then
        match acc with
        | none => some d
        | some a => if a.deal_id < d.deal_id then some d else some a
      else acc)
    none

/-- `SELECT ... FROM deals WHERE lead_id = ? AND payment_status = 'Paid'
ORDER BY deal_id DESC LIMIT 1`. -/
def latestPaidDealFor (deals : List Deal) (lid : Int) : Option Deal :=
  deals.foldl
    (fun acc d =>
      if d.lead_id = lid ∧ d.payment_status = "Paid" then
        match acc with
        | none => some d
        | some a => if a.deal_id < d.deal_id then some d else some a
      else acc)
    none

/-- `SELECT ... FROM calls_meetings WHERE lead_id = ?
ORDER BY call_datetime DESC LIMIT 1` (string ordering on the timestamp). -/
def latestCallFor (calls : List CallMeeting) (lid : Int) : Option CallMeeting :=
  calls.foldl
    (fun acc c =>
      if c.lead_id = lid then
        match acc with
        | none => some c
        | some a => if a.call_datetime < c.call_datetime then some c else some a
      else acc)
    none

/-- Rendering of a possibly-`None` Python value inside an f-string:
`f"{None}"` prints `"None"`. -/
def pyStr : Option String → String
  | none => "None"
  | some s => s

/-- Display formatting of a money amount. The source formats with
`:,.2f`; display formatting never influences control flow, so it is
abstracted by the exact decimal rendering of the rational. -/
def fmtMoney (v : Rat) : String := toString v

/-- One field of a Discord embed. -/
structure EmbedField where
  name : String
  value : String
  inl : Bool
  deriving Repr, DecidableEq

/-- A Discord embed as built by `_send_discord` (the `utcnow` timestamp is
omitted; it is display-only). -/
structure Embed where
  title : String
  description : String
  color : Nat
  fields : List EmbedField
  deriving Repr, DecidableEq

/-- The `data` dict of the Make.com forward payload built by
`handle_status_change` (`old_status` may be `None` when the ingress supplies
none). -/
structure ForwardData where
  lead_id : Int
  old_status : Option String
  new_status : String
  lead_data : LeadData
  deriving Repr, DecidableEq

/-- A call into one of the three sender boundaries: `_send_email(to, subject,
body)`, `_send_discord(message, embed_data)`, or
`_trigger_make_webhook(event_type, data)`. -/
inductive Effect where
  | email (to_email : String) (subject : String) (body : String)
  | discord (content : String) (embed : Option Embed)
  | makeForward (event_type : String) (data : ForwardData)
  deriving Repr, DecidableEq

/-- Condensed body of the Call Booked closer email (HTML template at
`automations.py` lines 191-211), preserving every interpolated value in
order; static markup between interpolations is abbreviated. -/
def callBookedEmailBody (ld : LeadData) (call_time call_notes : String) : String :=
  "<h2>New Call Booked</h2><p>Hi " ++ pyStr ld.closer_name
    ++ ",</p><p>A new call has been scheduled with you:</p>Lead Name: "
    ++ ld.lead.lead_name ++ " Company: " ++ pyStr ld.lead.company_name
    ++ " Email: " ++ pyStr ld.lead.contact_email ++ " Phone: "
    ++ pyStr ld.lead.contact_phone ++ " Scheduled Time: " ++ call_time
    ++ " <strong>Notes:</strong><br>" ++ call_notes
    ++ " <p>Good luck with the call!</p>"

/-- `_notify_closer_call_booked` (Workflow 1): no-op unless a truthy closer
email is on file; reads the lead's latest call (missing row → time `"TBD"`,
empty notes), then attempts one email and one Discord send. No store
mutation. -/
def notifyCloserCallBooked (st : Store) (ld : LeadData) : Store × List Effect :=
  if truthy ld.closer_email then
    let call := latestCallFor st.calls ld.lead.lead_id
    let call_time := match call with | some c => c.call_datetime | none => "TBD"
    let call_notes := match call with | some c => pyStr c.notes_summary | none => ""
    (st,
      [ Effect.email (ld.closer_email.getD "")
          ("New Call Booked: " ++ ld.lead.lead_name)
          (callBookedEmailBody ld call_time call_notes),
        Effect.discord ("New Call Booked for " ++ pyStr ld.closer_name)
          (some { title := "Call Booked Notification"
                  description := "Lead: " ++ ld.lead.lead_name ++ " from "
                    ++ pyStr ld.lead.company_name
                  color := 3066993
                  fields := [ ⟨"Scheduled Time", call_time, true⟩,
                              ⟨"Contact", pyStr ld.lead.contact_email, true⟩ ] }) ])
  else (st, [])

/-- The placeholder payment URL returned when Stripe is not configured or the
API call fails: `f"https://stripe.com/invoice/pay/(deal_id)"`. -/
def fallbackPaymentLink (deal_id : Int) : String :=
  "https://stripe.com/invoice/pay/" ++ toString deal_id

/-- The external `stripe.PaymentLink.create` call as an oracle, applied to the
deal value, deal id, lead id and company name used in the request; `none`
models a raised provider exception (caught by the source). -/
structure StripeEnv where
  create : Rat → Int → Int → Option String → Option String

/-- `_create_stripe_payment_link`: placeholder URL when `stripe_api_key` is
missing or empty; otherwise call the API, returning the same placeholder when
the call raises. -/
def createStripePaymentLink (env : StripeEnv) (st : Store) (amount : Rat)
    (deal_id : Int) (ld : LeadData) : String :=
  if truthy (configGet st "stripe_api_key") then
    match env.create amount deal_id ld.lead.lead_id ld.lead.company_name with
    | some url => url
    | none => fallbackPaymentLink deal_id
  else fallbackPaymentLink deal_id

/-- Condensed body of the Deal Closed closer email (`automations.py` lines
265-278), preserving the interpolated lead name, deal value and payment link
in order. -/
def dealClosedEmailBody (ld : LeadData) (deal_value : Rat)
    (payment_link : String) : String :=
  "<h2>Payment Link Ready</h2><p>The payment link for " ++ ld.lead.lead_name
    ++ " has been generated:</p><p><strong>Deal Value:</strong> $"
    ++ fmtMoney deal_value ++ "</p><p><a href=" ++ payment_link
    ++ ">Payment Link</a></p><p>Share this link with the client to complete the payment.</p>"

/-- `_handle_deal_closed` (Workflow 2): no-op when the lead has no deal;
otherwise create a payment link for the latest deal, persist it onto that
deal row, and attempt the closer email only when a truthy closer email is on
file. -/
def handleDealClosed (env : StripeEnv) (st : Store) (ld : LeadData) :
    Store × List Effect :=
  match latestDealFor st.deals ld.lead.lead_id with
  | none => (st, [])
  | some deal =>
    let payment_link := createStripePaymentLink env st deal.deal_value deal.deal_id ld
    let st' := { st with deals := st.deals.map (fun d =>
      if d.deal_id = deal.deal_id then
        { d with stripe_payment_link := some payment_link } else d) }
    if truthy ld.closer_email then
      (st', [Effect.email (ld.closer_email.getD "")
               ("Payment Link Generated: " ++ ld.lead.lead_name)
               (dealClosedEmailBody ld deal.deal_value payment_link)])
    else (st', [])

/-- Condensed body of the Production Started producer email (`automations.py`
lines 339-359), preserving the interpolated values in order. -/
def producerEmailBody (ld : LeadData) (deal_value : Rat) : String :=
  "<h2>New Production Project Assigned</h2><p>Hi " ++ pyStr ld.producer_name
    ++ ",</p><p>A new project has been assigned to you:</p>Client: "
    ++ ld.lead.lead_name ++ " Company: " ++ pyStr ld.lead.company_name
    ++ " Deal Value: $" ++ fmtMoney deal_value ++ " Contact Email: "
    ++ pyStr ld.lead.contact_email ++ " Contact Phone: "
    ++ pyStr ld.lead.contact_phone ++ " <strong>Project Notes:</strong><br>"
    ++ pyStr ld.lead.notes
    ++ " <p>Please confirm receipt and start working on this project.</p>"

/-- `_notify_producer_new_project` (Workflow 3): no-op unless a truthy
producer email is on file; reads the latest Paid deal (value `0` when none),
then attempts one email and one Discord send. No store mutation. -/
def notifyProducerNewProject (st : Store) (ld : LeadData) : Store × List Effect :=
  if truthy ld.producer_email then
    let deal_value := match latestPaidDealFor st.deals ld.lead.lead_id with
      | some d => d.deal_value
      | none => 0
    (st,
      [ Effect.email (ld.producer_email.getD "")
          ("New Production Project: " ++ ld.lead.lead_name)
          (producerEmailBody ld deal_value),
        Effect.discord ("New Production Project for " ++ pyStr ld.producer_name)
          (some { title := "Production Started"
                  description := "Client: " ++ ld.lead.lead_name ++ " - "
                    ++ pyStr ld.lead.company_name
                  color := 15844367
                  fields := [ ⟨"Deal Value", "$" ++ fmtMoney deal_value, true⟩,
                              ⟨"Producer", pyStr ld.producer_name, true⟩ ] }) ])
  else (st, [])

/-- The four commission amounts as computed at `automations.py` lines
399-402: each is its own multiplication of the deal value by a fixed rate
(`0.08`, `0.10`, `0.08`, `0.26`); the total is a fourth independent product,
not the sum of the first three. -/
def computeCommissions (deal_value : Rat) : Rat × Rat × Rat × Rat :=
  (deal_value * (8/100), deal_value * (10/100), deal_value * (8/100),
   deal_value * (26/100))

/-- The row transformer of `UPDATE deals SET commission_lead_gen = ?, … WHERE
deal_id = ?`, storing the four amounts computed from deal value `v`. -/
def setCommissions (did : Int) (v : Rat) (d : Deal) : Deal :=
  if d.deal_id = did then
    { d with commission_lead_gen := some (computeCommissions v).1,
             commission_closer := some (computeCommissions v).2.1,
             commission_producer := some (computeCommissions v).2.2.1,
             total_commission := some (computeCommissions v).2.2.2 }
  else d

/-- `self.config.get('manager_email', self.config.get('smtp_email'))`:
the `manager_email` config value, falling back to the `smtp_email` config
value when the `manager_email` key is absent. -/
def managerRecipient (st : Store) : Option String :=
  match configGet st "manager_email" with
  | some v => some v
  | none => configGet st "smtp_email"

/-- Condensed body of the commission-breakdown manager email
(`automations.py` lines 421-458), preserving the interpolated values in
order. -/
def commissionsEmailBody (ld : LeadData) (deal_value : Rat) : String :=
  "<h2>Commission Calculation Complete</h2><p>Production has been completed for "
    ++ ld.lead.lead_name ++ ". Here is the commission breakdown:</p>Lead Generator (8%) "
    ++ pyStr ld.lead_gen_name ++ " $" ++ fmtMoney (computeCommissions deal_value).1
    ++ " Closer (10%) " ++ pyStr ld.closer_name ++ " $"
    ++ fmtMoney (computeCommissions deal_value).2.1
    ++ " Producer (8%) " ++ pyStr ld.producer_name ++ " $"
    ++ fmtMoney (computeCommissions deal_value).2.2.1
    ++ " Total Commission (26%) $" ++ fmtMoney (computeCommissions deal_value).2.2.2
    ++ " <strong>Deal Value:</strong> $" ++ fmtMoney deal_value
    ++ " <strong>Client:</strong> " ++ ld.lead.lead_name ++ " - "
    ++ pyStr ld.lead.company_name

/-- `_calculate_and_notify_commissions` (Workflow 4): no-op when the lead has
no deal; otherwise compute the four commissions on the latest deal's value,
persist them onto that deal row, then — only when a truthy manager recipient
resolves — attempt one email and one Discord send. -/
def calculateAndNotifyCommissions (st : Store) (ld : LeadData) :
    Store × List Effect :=
  match latestDealFor st.deals ld.lead.lead_id with
  | none => (st, [])
  | some deal =>
    let st' := { st with
      deals := st.deals.map (setCommissions deal.deal_id deal.deal_value) }
    let manager_email := managerRecipient st
    if truthy manager_email then
      (st',
        [ Effect.email (manager_email.getD "")
            ("Commission Breakdown: " ++ ld.lead.lead_name)
            (commissionsEmailBody ld deal.deal_value),
          Effect.discord "Commission Calculation Complete"
            (some { title := "Commissions Ready"
                    description := "Deal: " ++ ld.lead.lead_name ++ " - $"
                      ++ fmtMoney deal.deal_value
                    color := 3066993
                    fields :=
                      [ ⟨"Lead Gen", "$" ++ fmtMoney (computeCommissions deal.deal_value).1, true⟩,
                        ⟨"Closer", "$" ++ fmtMoney (computeCommissions deal.deal_value).2.1, true⟩,
                        ⟨"Producer", "$" ++ fmtMoney (computeCommissions deal.deal_value).2.2.1, true⟩,
                        ⟨"Total", "$" ++ fmtMoney (computeCommissions deal.deal_value).2.2.2, false⟩ ] }) ])
    else (st', [])

/-- Condensed body of the Closed + Paid manager email (`automations.py` lines
499-524), preserving the interpolated values in order. -/
def recurringEmailBody (ld : LeadData) (deal_value : Rat) : String :=
  "<h2>Client Fulfillment Complete</h2><p>The client " ++ ld.lead.lead_name
    ++ " has been fully fulfilled.</p><p><strong>Action Required:</strong> Setup recurring monthly retainer invoice</p>Client: "
    ++ ld.lead.lead_name ++ " Company: " ++ pyStr ld.lead.company_name
    ++ " Initial Deal Value: $" ++ fmtMoney deal_value ++ " Contact Email: "
    ++ pyStr ld.lead.contact_email
    ++ " <p>This notification was triggered by the completion of production.</p>"

/-- `_setup_recurring_payment` (Workflow 5): reads the latest deal only for
display (value `0` when none); when a truthy manager recipient resolves,
attempts one email and one Discord send. No store mutation. -/
def setupRecurringPayment (st : Store) (ld : LeadData) : Store × List Effect :=
  let manager_email := managerRecipient st
  let deal_value := match latestDealFor st.deals ld.lead.lead_id with
    | some d => d.deal_value
    | none => 0
  if truthy manager_email then
    (st,
      [ Effect.email (manager_email.getD "")
          ("Client Fulfilled - Setup Recurring Payment: " ++ ld.lead.lead_name)
          (recurringEmailBody ld deal_value),
        Effect.discord "Client Fulfilled - Recurring Payment Needed"
          (some { title := "Setup Recurring Payment"
                  description := "Client: " ++ ld.lead.lead_name
                    ++ " is ready for monthly retainer"
                  color := 5763719
                  fields := [ ⟨"Client", ld.lead.lead_name, true⟩,
                              ⟨"Company", pyStr ld.lead.company_name, true⟩ ] }) ])
  else (st, [])

/-- `handle_status_change`: silent no-op when the lead cannot be found;
otherwise dispatch on `new_status` (exact, case-sensitive string match) to at
most one workflow, then always call
`_trigger_make_webhook("status_change", …)` with the lead id, both statuses
and the joined lead data. -/
def handle_status_change (env : StripeEnv) (st : Store) (lead_id : Int)
    (old_status : Option String) (new_status : String) : Store × List Effect :=
  match getLeadData st lead_id with
  | none => (st, [])
  | some lead_data =>
    let r :=
      if new_status = "Call Booked" then notifyCloserCallBooked st lead_data
      else if new_status = "Deal Closed" then handleDealClosed env st lead_data
      else if new_status = "Production Started" then
        notifyProducerNewProject st lead_data
      else if new_status = "Production Complete" then
        calculateAndNotifyCommissions st lead_data
      else if new_status = "Closed + Paid" then setupRecurringPayment st lead_data
      else (st, [])
    (r.1, r.2 ++ [Effect.makeForward "status_change"
      ⟨lead_id, old_status, new_status, lead_data⟩])

/-- `handle_payment_received`: set the deal's `payment_status` to `'Paid'`,
set the lead's `lead_status` to `'Production Started'`, then reload the lead
data and invoke the Production Started workflow directly (no Make.com
forward). -/
def handle_payment_received (st : Store) (lead_id deal_id : Int) :
    Store × List Effect :=
  let st1 := { st with deals := st.deals.map (fun (d : Deal) =>
    if d.deal_id = deal_id then { d with payment_status := "Paid" } else d) }
  let st2 := { st1 with leads := st1.leads.map (fun (l : Lead) =>
    if l.lead_id = lead_id then { l with lead_status := "Production Started" }
    else l) }
  match getLeadData st2 lead_id with
  | some lead_data => notifyProducerNewProject st2 lead_data
  | none => (st2, [])

/-- `handle_producer_confirmation`: reload the lead data and invoke the
Production Complete workflow directly (no Make.com forward). -/
def handle_producer_confirmation (st : Store) (lead_id : Int) :
    Store × List Effect :=
  match getLeadData st lead_id with
  | some lead_data => calculateAndNotifyCommissions st lead_data
  | none => (st, [])

/-- `log_activity`: append one row to the `activity_log` table. -/
def log_activity (st : Store) (lead_id : Int) (activity_type : String)
    (performed_by_id : Int) (notes : String) : Store :=
  { st with activity_log :=
      st.activity_log ++ [⟨lead_id, activity_type, performed_by_id, notes⟩] }

/-- Value of a run of decimal digits; `none` when the run is empty or a
non-digit occurs. -/
def digitsVal : List Char → Option Nat
  | [] => none
  | cs =>
    cs.foldl
      (fun acc c =>
        match acc with
        | none => none
        | some n => if c.isDigit then some (n * 10 + (c.toNat - 48)) else none)
      (some 0)

/-- Python's `int(s)` on a string: optional surrounding whitespace, optional
sign, then decimal digits; `none` models a raised `ValueError` (caught by the
ingress handlers). -/
def pythonInt (s : String) : Option Int :=
  let t := ((s.toList.dropWhile (fun c => c.isWhitespace)).reverse.dropWhile
    (fun c => c.isWhitespace)).reverse
  match t with
  | '-' :: rest => (digitsVal rest).map (fun n => -(n : Int))
  | '+' :: rest => (digitsVal rest).map (fun n => (n : Int))
  | cs => (digitsVal cs).map (fun n => (n : Int))

/-- SQLite `WHERE deal_id = ?` with a text parameter against the
INTEGER-affinity `deal_id` column: the text is coerced to an integer when it
looks like one, and matches no integer row otherwise. -/
def sqlIdMatch (id : Int) (s : String) : Bool :=
  pythonInt s == some id

/-- The `data.object` level of a Stripe event payload: only the `metadata`
dict is read. -/
structure StripeObject where
  metadata : Option (List (String × String)) := none
  deriving Repr, DecidableEq

/-- The `data` level of a Stripe event payload. -/
structure StripeData where
  object : Option StripeObject := none
  deriving Repr, DecidableEq

/-- An inbound Stripe webhook payload:
`(type: string, data: (object: (metadata: (deal_id, lead_id))))`. -/
structure StripePayload where
  type : Option String := none
  data : Option StripeData := none
  deriving Repr, DecidableEq

/-- `payload.get('data', ()).get('object', ()).get('metadata', ())`: the
metadata dict of a Stripe payload, empty at every missing level. -/
def stripeMetadata (p : StripePayload) : List (String × String) :=
  (((p.data.getD {}).object.getD {}).metadata.getD [])

/-- `handle_stripe_webhook`: on `payment_intent.succeeded` with truthy
`deal_id` and `lead_id` metadata, convert both ids and run
`handle_payment_received` (a raised `ValueError` on conversion is caught →
`False`, no mutation); on `payment_intent.payment_failed` with truthy ids,
set the deal's `payment_status` to `'Failed'` and commit, then convert
`lead_id` and append an activity-log row (a conversion error after the
commit is caught → `False`, the mutation stays); anything else → `False`.
Returns the resulting store, the attempted sends, and the boolean result. -/
def handle_stripe_webhook (st : Store) (p : StripePayload) :
    Store × List Effect × Bool :=
  let event_type := p.type
  if event_type = some "payment_intent.succeeded" then
    let metadata := stripeMetadata p
    let deal_id := dictGet metadata "deal_id"
    let lead_id := dictGet metadata "lead_id"
    if truthy deal_id && truthy lead_id then
      match pythonInt (lead_id.getD ""), pythonInt (deal_id.getD "") with
      | some ln, some dn =>
        let r := handle_payment_received st ln dn
        (r.1, r.2, true)
      | _, _ => (st, [], false)
    else (st, [], false)
  else if event_type = some "payment_intent.payment_failed" then
    let metadata := stripeMetadata p
    let deal_id := dictGet metadata "deal_id"
    let lead_id := dictGet metadata "lead_id"
    if truthy deal_id && truthy lead_id then
      let st' := { st with deals := st.deals.map (fun (d : Deal) =>
        if sqlIdMatch d.deal_id (deal_id.getD "") then
          { d with payment_status := "Failed" } else d) }
      match pythonInt (lead_id.getD "") with
      | some ln =>
        (log_activity st' ln "Payment Failed" 0
          ("Payment failed for deal " ++ deal_id.getD ""), [], true)
      | none => (st', [], false)
    else (st, [], false)
  else (st, [], false)

/-- The `data` dict of a Make.com callback payload. -/
structure MakeData where
  lead_id : Option String := none
  new_status : Option String := none
  old_status : Option String := none
  deriving Repr, DecidableEq

/-- An inbound Make.com webhook payload. -/
structure MakePayload where
  event_type : Option String := none
  data : Option MakeData := none
  deriving Repr, DecidableEq

/-- `handle_make_webhook`: on `producer_confirmation` with a truthy
`lead_id`, run `handle_producer_confirmation`; on `manual_status_update` with
truthy `lead_id` and `new_status`, run the full `handle_status_change`; a
raised `ValueError` on `int(lead_id)` is caught → `False`; anything else →
`False`. -/
def handle_make_webhook (env : StripeEnv) (st : Store) (p : MakePayload) :
    Store × List Effect × Bool :=
  let event_type := p.event_type
  if event_type = some "producer_confirmation" then
    let lead_id := (p.data.getD {}).lead_id
    if truthy lead_id then
      match pythonInt (lead_id.getD "") with
      | some ln =>
        let r := handle_producer_confirmation st ln
        (r.1, r.2, true)
      | none => (st, [], false)
    else (st, [], false)
  else if event_type = some "manual_status_update" then
    let lead_id := (p.data.getD {}).lead_id
    let new_status := (p.data.getD {}).new_status
    let old_status := (p.data.getD {}).old_status
    if truthy lead_id && truthy new_status then
      match pythonInt (lead_id.getD "") with
      | some ln =>
        let r := handle_status_change env st ln old_status (new_status.getD "")
        (r.1, r.2, true)
      | none => (st, [], false)
    else (st, [], false)
  else (st, [], false)

/-! Concrete fixtures used by the witness theorems. -/

/-- A closer on file, with an email address. -/
def sampleCloser : TeamMember := ⟨1, "Cathy", some "Closer", some "cathy@example.com"⟩

/-- A producer on file, with an email address. -/
def sampleProducer : TeamMember := ⟨2, "Paul", some "Producer", some "paul@example.com"⟩

/-- Lead 3, assigned to the sample closer and producer. -/
def sampleLead : Lead :=
  ⟨3, "Acme Lead", some "Acme", some "lead@acme.com", none, some 1, some 2,
   "Deal Closed", none⟩

/-- Deal 7 of lead 3, value 5000, payment pending. -/
def sampleDeal : Deal := ⟨7, 3, 5000, "Pending", none, none, none, none, none⟩

/-- A store holding the sample lead, deal and team, with only `smtp_email`
configured. -/
def sampleStore : Store :=
  ⟨[sampleLead], [sampleDeal], [], [sampleCloser, sampleProducer], [],
   [("smtp_email", "mgr@example.com")]⟩

/-- A Stripe oracle whose API call always fails. -/
def sampleEnv : StripeEnv := ⟨fun _ _ _ _ => none⟩

/-- The sample store with an empty deals table. -/
def noDealStore : Store :=
  ⟨[sampleLead], [], [], [sampleCloser, sampleProducer], [], []⟩

/-- The sample store with an empty config table (no manager or SMTP email). -/
def bareStore : Store :=
  ⟨[sampleLead], [sampleDeal], [], [sampleCloser, sampleProducer], [], []⟩


/-- The joined lead data of `sampleLead` in `sampleStore`. -/
def sampleLeadData : LeadData :=
  ⟨sampleLead, some "Cathy", some "cathy@example.com", some "Paul",
   some "paul@example.com", none, none⟩

/-- The payment link the Deal Closed workflow creates for the sample deal in
the sample store (Stripe unconfigured there). -/
def sampleLink : String :=
  createStripePaymentLink sampleEnv sampleStore sampleDeal.deal_value
    sampleDeal.deal_id sampleLeadData

/-- The sample deal with `sampleLink` persisted onto it. -/
def sampleDealLinked : Deal :=
  { sampleDeal with stripe_payment_link := some sampleLink }

/-- The part of the Deal Closed email body before the payment link. -/
def dealClosedBodyPre (ld : LeadData) (deal_value : Rat) : String :=
  "<h2>Payment Link Ready</h2><p>The payment link for " ++ ld.lead.lead_name
    ++ " has been generated:</p><p><strong>Deal Value:</strong> $"
    ++ fmtMoney deal_value ++ "</p><p><a href="

/-- The part of the Deal Closed email body after the payment link. -/
def dealClosedBodySuf : String :=
  ">Payment Link</a></p><p>Share this link with the client to complete the payment.</p>"

/-- The three kinds of sender-boundary calls. -/
inductive EffectKind where
  | email
  | discord
  | forward
  deriving Repr, DecidableEq

/-- Which sender boundary an effect invokes. -/
def Effect.kind : Effect → EffectKind
  | .email _ _ _ => .email
  | .discord _ _ => .discord
  | .makeForward _ _ => .forward

/-- The sample lead data with no closer or producer on file. -/
def bareLeadData : LeadData :=
  ⟨sampleLead, none, none, none, none, none, none⟩

/-- The deal updated by `handle_payment_received` for deal 7. -/
def sampleDealPaid : Deal := { sampleDeal with payment_status := "Paid" }

/-- The lead updated by `handle_payment_received` for lead 3. -/
def sampleLeadStarted : Lead :=
  { sampleLead with lead_status := "Production Started" }

/-- A Stripe `payment_intent.succeeded` payload with metadata deal 7 /
lead 3. -/
def stripeSucceededPayload : StripePayload :=
  ⟨some "payment_intent.succeeded",
   some ⟨some ⟨some [("deal_id", "7"), ("lead_id", "3")]⟩⟩⟩

/-- A Stripe `payment_intent.payment_failed` payload whose `lead_id` is not a
decimal integer string. -/
def stripeFailedBadLeadPayload : StripePayload :=
  ⟨some "payment_intent.payment_failed",
   some ⟨some ⟨some [("deal_id", "7"), ("lead_id", "abc")]⟩⟩⟩

/-- A Stripe payload with an unrecognized event type. -/
def stripeUnknownPayload : StripePayload := ⟨some "charge.refunded", none⟩

/-- A Stripe `payment_intent.succeeded` payload with no metadata at all. -/
def stripeNoMetaPayload : StripePayload :=
  ⟨some "payment_intent.succeeded", none⟩

/-- A Stripe `payment_intent.payment_failed` payload with empty metadata. -/
def stripeFailedNoMetaPayload : StripePayload :=
  ⟨some "payment_intent.payment_failed", some ⟨some ⟨some []⟩⟩⟩

/-- A Make.com payload with an unrecognized event type. -/
def makeUnknownPayload : MakePayload := ⟨some "lead_scored", none⟩

/-- A Make.com `producer_confirmation` payload missing its `lead_id`. -/
def makeNoLeadPayload : MakePayload :=
  ⟨some "producer_confirmation", some ⟨none, none, none⟩⟩

/-- A Make.com `manual_status_update` payload missing its `new_status`. -/
def makeNoStatusPayload : MakePayload :=
  ⟨some "manual_status_update", some ⟨some "3", none, some "New Lead"⟩⟩

/-! Helper lemmas shared between claims. -/

/-- When a latest deal exists, the Production Complete workflow's resulting
store is exactly the input store with the commission update mapped over the
deals table, whether or not a manager recipient resolved. -/
theorem calc_commissions_fst (st : Store) (ld : LeadData) (deal : Deal)
    (h : latestDealFor st.deals ld.lead.lead_id = some deal) :
    (calculateAndNotifyCommissions st ld).1
      = { st with deals :=
            st.deals.map (setCommissions deal.deal_id deal.deal_value) } := by
  unfold calculateAndNotifyCommissions
  rw [h]
  by_cases hm : truthy (managerRecipient st) <;> simp [hm]

/-- A deal row carrying the target id after the commission update holds the
four computed amounts. -/
theorem setCommissions_mem (deals : List Deal) (did : Int) (v : Rat)
    (d' : Deal) (hmem : d' ∈ deals.map (setCommissions did v))
    (hid : d'.deal_id = did) :
    d'.commission_lead_gen = some (v * (8/100))
    ∧ d'.commission_closer = some (v * (10/100))
    ∧ d'.commission_producer = some (v * (8/100))
    ∧ d'.total_commission = some (v * (26/100)) := by
  rcases List.mem_map.mp hmem with ⟨a, _, rfl⟩
  by_cases h : a.deal_id = did
  · simp [setCommissions, h, computeCommissions]
  · rw [setCommissions, if_neg h] at hid ⊢
    exact absurd hid h

/-! Theorems settling the claims. -/

/-- C1: For every deal value v, the Production Complete workflow computes the
four commission amounts as lead_gen = 0.08·v, closer = 0.10·v,
producer = 0.08·v and total = 0.26·v — each its own multiplication, the
total being the independent product 0.26·v rather than a sum (this is how
`computeCommissions` is defined, mirroring `automations.py` lines 399-402) —
and persists exactly these four amounts onto the latest deal row; a deal
value of 5000.00 yields (400.00, 500.00, 400.00, 1300.00). -/
theorem c1_commission_formula (v : Rat) (st : Store) (ld : LeadData)
    (deal d' : Deal)
    (hdeal : latestDealFor st.deals ld.lead.lead_id = some deal)
    (hmem : d' ∈ (calculateAndNotifyCommissions st ld).1.deals)
    (hid : d'.deal_id = deal.deal_id) :
    computeCommissions v
      = (v * (8/100), v * (10/100), v * (8/100), v * (26/100))
    ∧ computeCommissions 5000 = (400, 500, 400, 1300)
    ∧ d'.commission_lead_gen = some (deal.deal_value * (8/100))
    ∧ d'.commission_closer = some (deal.deal_value * (10/100))
    ∧ d'.commission_producer = some (deal.deal_value * (8/100))
    ∧ d'.total_commission = some (deal.deal_value * (26/100)) := by
  refine ⟨rfl, by norm_num [computeCommissions], ?_⟩
  rw [calc_commissions_fst st ld deal hdeal] at hmem
  exact setCommissions_mem st.deals deal.deal_id deal.deal_value d' hmem hid

/-- Witness for C1 at deal value 5000 in the sample store. -/
theorem c1_commission_formula_witness :
    computeCommissions 5000
      = ((5000 : Rat) * (8/100), (5000 : Rat) * (10/100),
         (5000 : Rat) * (8/100), (5000 : Rat) * (26/100))
    ∧ computeCommissions 5000 = (400, 500, 400, 1300)
    ∧ (setCommissions 7 5000 sampleDeal).commission_lead_gen
        = some ((5000 : Rat) * (8/100))
    ∧ (setCommissions 7 5000 sampleDeal).commission_closer
        = some ((5000 : Rat) * (10/100))
    ∧ (setCommissions 7 5000 sampleDeal).commission_producer
        = some ((5000 : Rat) * (8/100))
    ∧ (setCommissions 7 5000 sampleDeal).total_commission
        = some ((5000 : Rat) * (26/100)) :=
  c1_commission_formula 5000 sampleStore sampleLeadData sampleDeal
    (setCommissions 7 5000 sampleDeal) rfl
    (by rw [calc_commissions_fst sampleStore sampleLeadData sampleDeal rfl]
        simp [sampleStore]
        rfl)
    rfl

/-- C2: For every existing lead and every new_status outside the five mapped
values, `handle_status_change` leaves the store unchanged and attempts no
email or Discord send, but still forwards
(lead_id, old_status, new_status, lead_data) to the Make.com workflow-engine
webhook. -/
theorem c2_unmapped_status_frame (env : StripeEnv) (st : Store)
    (lead_id : Int) (old_status : Option String) (new_status : String)
    (ld : LeadData) (h : getLeadData st lead_id = some ld)
    (h1 : new_status ≠ "Call Booked") (h2 : new_status ≠ "Deal Closed")
    (h3 : new_status ≠ "Production Started")
    (h4 : new_status ≠ "Production Complete")
    (h5 : new_status ≠ "Closed + Paid") :
    handle_status_change env st lead_id old_status new_status
      = (st, [Effect.makeForward "status_change"
                ⟨lead_id, old_status, new_status, ld⟩]) := by
  simp [handle_status_change, h, h1, h2, h3, h4, h5]

/-- Witness for C2 with the unmapped status "Call Confirmed". -/
theorem c2_unmapped_status_frame_witness :
    handle_status_change sampleEnv sampleStore 3 (some "New Lead") "Call Confirmed"
      = (sampleStore,
         [Effect.makeForward "status_change"
            ⟨3, some "New Lead", "Call Confirmed", sampleLeadData⟩]) :=
  c2_unmapped_status_frame sampleEnv sampleStore 3 (some "New Lead")
    "Call Confirmed" sampleLeadData rfl
    (by decide) (by decide) (by decide) (by decide) (by decide)

/-- C7: For every lead_id with no lead row in the store,
`handle_status_change` is a silent no-op: the store is unchanged and no
send or forward is attempted. -/
theorem c7_missing_lead_noop (env : StripeEnv) (st : Store) (lead_id : Int)
    (old_status : Option String) (new_status : String)
    (h : getLeadData st lead_id = none) :
    handle_status_change env st lead_id old_status new_status = (st, []) := by
  simp [handle_status_change, h]

/-- Witness for C7 at a lead id absent from the sample store. -/
theorem c7_missing_lead_noop_witness :
    handle_status_change sampleEnv sampleStore 99 (some "New Lead") "Call Booked"
      = (sampleStore, []) :=
  c7_missing_lead_noop sampleEnv sampleStore 99 (some "New Lead") "Call Booked" rfl

/-- When a latest deal exists, the Deal Closed workflow's resulting store is
the input store with the payment link written onto the matching deal row,
whether or not a closer email is on file. -/
theorem deal_closed_fst (env : StripeEnv) (st : Store) (ld : LeadData)
    (deal : Deal) (h : latestDealFor st.deals ld.lead.lead_id = some deal) :
    (handleDealClosed env st ld).1
      = { st with deals := st.deals.map (fun d =>
            if d.deal_id = deal.deal_id then
              { d with stripe_payment_link := some
                        (createStripePaymentLink env st deal.deal_value
                          deal.deal_id ld) }
            else d) } := by
  unfold handleDealClosed
  rw [h]
  by_cases hc : truthy ld.closer_email <;> simp [hc]

/-- A deal row carrying the target id after the payment-link update holds the
link. -/
theorem setLink_mem (deals : List Deal) (did : Int) (link : String)
    (d' : Deal)
    (hmem : d' ∈ deals.map (fun d =>
      if d.deal_id = did then { d with stripe_payment_link := some link }
      else d))
    (hid : d'.deal_id = did) :
    d'.stripe_payment_link = some link := by
  rcases List.mem_map.mp hmem with ⟨a, _, rfl⟩
  by_cases h : a.deal_id = did
  · simp [h]
  · rw [if_neg h] at hid ⊢
    exact absurd hid h

/-- C4: The Deal Closed workflow is a no-op when the lead has no Deal;
otherwise it obtains a payment link for the most recent deal's value
(falling back to the deterministic `https://stripe.com/invoice/pay/(deal_id)`
URL when the provider is unconfigured or errors), persists that link onto the
Deal, and sends the closer a notification email whose body contains the link
if and only if a truthy closer email is on file. -/
theorem c4_deal_closed (env : StripeEnv) (st st₂ : Store) (ld ld₂ : LeadData)
    (deal d' : Deal)
    (hdeal : latestDealFor st.deals ld.lead.lead_id = some deal)
    (hmem : d' ∈ (handleDealClosed env st ld).1.deals)
    (hid : d'.deal_id = deal.deal_id) :
    (latestDealFor st₂.deals ld₂.lead.lead_id = none →
       handleDealClosed env st₂ ld₂ = (st₂, []))
    ∧ d'.stripe_payment_link
        = some (createStripePaymentLink env st deal.deal_value deal.deal_id ld)
    ∧ (truthy ld.closer_email = true →
        (handleDealClosed env st ld).2
          = [Effect.email (ld.closer_email.getD "")
               ("Payment Link Generated: " ++ ld.lead.lead_name)
               (dealClosedEmailBody ld deal.deal_value
                 (createStripePaymentLink env st deal.deal_value deal.deal_id ld))])
    ∧ (truthy ld.closer_email = false → (handleDealClosed env st ld).2 = [])
    ∧ dealClosedEmailBody ld deal.deal_value
        (createStripePaymentLink env st deal.deal_value deal.deal_id ld)
        = dealClosedBodyPre ld deal.deal_value
            ++ createStripePaymentLink env st deal.deal_value deal.deal_id ld
            ++ dealClosedBodySuf
    ∧ ((truthy (configGet st "stripe_api_key") = false
          ∨ env.create deal.deal_value deal.deal_id ld.lead.lead_id
              ld.lead.company_name = none) →
        createStripePaymentLink env st deal.deal_value deal.deal_id ld
          = fallbackPaymentLink deal.deal_id) := by
  refine ⟨?_, ?_, ?_, ?_, ?_, ?_⟩
  · intro h2
    simp [handleDealClosed, h2]
  · rw [deal_closed_fst env st ld deal hdeal] at hmem
    exact setLink_mem st.deals deal.deal_id _ d' hmem hid
  · intro hc
    unfold handleDealClosed
    rw [hdeal]
    simp [hc]
  · intro hc
    unfold handleDealClosed
    rw [hdeal]
    simp [hc]
  · simp [dealClosedEmailBody, dealClosedBodyPre, dealClosedBodySuf,
      String.append_assoc]
  · rintro (hk | ha)
    · simp [createStripePaymentLink, hk]
    · unfold createStripePaymentLink
      by_cases hk : truthy (configGet st "stripe_api_key") <;> simp [hk, ha]

/-- Witness for C4: deal 7 in the sample store (Stripe unconfigured, failing
oracle, closer on file), and the no-deal case at the store with an empty
deals table. -/
theorem c4_deal_closed_witness :
    (latestDealFor noDealStore.deals sampleLeadData.lead.lead_id = none →
       handleDealClosed sampleEnv noDealStore sampleLeadData = (noDealStore, []))
    ∧ sampleDealLinked.stripe_payment_link = some sampleLink
    ∧ (truthy sampleLeadData.closer_email = true →
        (handleDealClosed sampleEnv sampleStore sampleLeadData).2
          = [Effect.email (sampleLeadData.closer_email.getD "")
               ("Payment Link Generated: " ++ sampleLeadData.lead.lead_name)
               (dealClosedEmailBody sampleLeadData sampleDeal.deal_value sampleLink)])
    ∧ (truthy sampleLeadData.closer_email = false →
        (handleDealClosed sampleEnv sampleStore sampleLeadData).2 = [])
    ∧ dealClosedEmailBody sampleLeadData sampleDeal.deal_value sampleLink
        = dealClosedBodyPre sampleLeadData sampleDeal.deal_value
            ++ sampleLink ++ dealClosedBodySuf
    ∧ ((truthy (configGet sampleStore "stripe_api_key") = false
          ∨ sampleEnv.create sampleDeal.deal_value sampleDeal.deal_id
              sampleLeadData.lead.lead_id sampleLeadData.lead.company_name = none) →
        sampleLink = fallbackPaymentLink sampleDeal.deal_id) :=
  c4_deal_closed sampleEnv sampleStore noDealStore sampleLeadData
    sampleLeadData sampleDeal sampleDealLinked
    rfl
    (by rw [deal_closed_fst sampleEnv sampleStore sampleLeadData sampleDeal rfl]
        simp [sampleStore, sampleDealLinked, sampleLink])
    rfl

/-- The Production Started workflow never mutates the store. -/
theorem notify_producer_fst (st : Store) (ld : LeadData) :
    (notifyProducerNewProject st ld).1 = st := by
  unfold notifyProducerNewProject
  by_cases h : truthy ld.producer_email <;> simp [h]

/-- C5: Every workflow handler is a total function (so it completes without
raising for any lead context), and a missing closer, producer, call or deal
degrades it exactly as specified: no closer email skips the whole Call Booked
workflow and no producer email the whole Production Started workflow; no deal
makes Deal Closed and Production Complete no-ops; while a missing call
(Call Booked) or missing Paid deal (Production Started) still leaves both the
email and the chat send attempted, as does the Closed + Paid workflow
whenever a manager recipient resolves. -/
theorem c5_missing_context (env : StripeEnv) (st stND : Store)
    (ld ldM ldD : LeadData) :
    (truthy ldM.closer_email = false → notifyCloserCallBooked st ldM = (st, []))
    ∧ (truthy ld.closer_email = true →
        (notifyCloserCallBooked st ld).1 = st
        ∧ (notifyCloserCallBooked st ld).2.map Effect.kind
            = [EffectKind.email, EffectKind.discord])
    ∧ (truthy ldM.producer_email = false →
        notifyProducerNewProject st ldM = (st, []))
    ∧ (truthy ld.producer_email = true →
        (notifyProducerNewProject st ld).1 = st
        ∧ (notifyProducerNewProject st ld).2.map Effect.kind
            = [EffectKind.email, EffectKind.discord])
    ∧ (latestDealFor stND.deals ldD.lead.lead_id = none →
        handleDealClosed env stND ldD = (stND, [])
        ∧ calculateAndNotifyCommissions stND ldD = (stND, []))
    ∧ (setupRecurringPayment st ld).1 = st
    ∧ (truthy (managerRecipient st) = true →
        (setupRecurringPayment st ld).2.map Effect.kind
          = [EffectKind.email, EffectKind.discord])
    ∧ (truthy (managerRecipient st) = false →
        (setupRecurringPayment st ld).2 = []) := by
  refine ⟨?_, ?_, ?_, ?_, ?_, ?_, ?_, ?_⟩
  · intro h
    simp [notifyCloserCallBooked, h]
  · intro h
    simp [notifyCloserCallBooked, h, Effect.kind]
  · intro h
    simp [notifyProducerNewProject, h]
  · intro h
    simp [notifyProducerNewProject, h, Effect.kind]
  · intro h
    exact ⟨by simp [handleDealClosed, h],
           by simp [calculateAndNotifyCommissions, h]⟩
  · unfold setupRecurringPayment
    by_cases h : truthy (managerRecipient st) <;> simp [h]
  · intro h
    simp [setupRecurringPayment, h, Effect.kind]
  · intro h
    simp [setupRecurringPayment, h]

/-- Witness for C5: the sample store has no call rows and no Paid deal, yet
the Call Booked and Production Started workflows still attempt both sends
for the fully-assigned lead data; the lead data with nobody assigned skips
them; the no-deal store makes Deal Closed and Production Complete no-ops. -/
theorem c5_missing_context_witness :
    (truthy bareLeadData.closer_email = false →
       notifyCloserCallBooked sampleStore bareLeadData = (sampleStore, []))
    ∧ (truthy sampleLeadData.closer_email = true →
        (notifyCloserCallBooked sampleStore sampleLeadData).1 = sampleStore
        ∧ (notifyCloserCallBooked sampleStore sampleLeadData).2.map Effect.kind
            = [EffectKind.email, EffectKind.discord])
    ∧ (truthy bareLeadData.producer_email = false →
        notifyProducerNewProject sampleStore bareLeadData = (sampleStore, []))
    ∧ (truthy sampleLeadData.producer_email = true →
        (notifyProducerNewProject sampleStore sampleLeadData).1 = sampleStore
        ∧ (notifyProducerNewProject sampleStore sampleLeadData).2.map Effect.kind
            = [EffectKind.email, EffectKind.discord])
    ∧ (latestDealFor noDealStore.deals sampleLeadData.lead.lead_id = none →
        handleDealClosed sampleEnv noDealStore sampleLeadData = (noDealStore, [])
        ∧ calculateAndNotifyCommissions noDealStore sampleLeadData
            = (noDealStore, []))
    ∧ (setupRecurringPayment sampleStore sampleLeadData).1 = sampleStore
    ∧ (truthy (managerRecipient sampleStore) = true →
        (setupRecurringPayment sampleStore sampleLeadData).2.map Effect.kind
          = [EffectKind.email, EffectKind.discord])
    ∧ (truthy (managerRecipient sampleStore) = false →
        (setupRecurringPayment sampleStore sampleLeadData).2 = []) :=
  c5_missing_context sampleEnv sampleStore noDealStore sampleLeadData
    bareLeadData sampleLeadData

/-- The commission update preserves `lead_id`. -/
theorem setCommissions_lead_id (did : Int) (v : Rat) (d : Deal) :
    (setCommissions did v d).lead_id = d.lead_id := by
  unfold setCommissions
  by_cases h : d.deal_id = did <;> simp [h]

/-- The commission update preserves `deal_id`. -/
theorem setCommissions_deal_id (did : Int) (v : Rat) (d : Deal) :
    (setCommissions did v d).deal_id = d.deal_id := by
  unfold setCommissions
  by_cases h : d.deal_id = did <;> simp [h]

/-- The commission update preserves `deal_value`. -/
theorem setCommissions_deal_value (did : Int) (v : Rat) (d : Deal) :
    (setCommissions did v d).deal_value = d.deal_value := by
  unfold setCommissions
  by_cases h : d.deal_id = did <;> simp [h]

/-- Applying the same commission update twice equals applying it once. -/
theorem setCommissions_idem (did : Int) (v : Rat) (d : Deal) :
    setCommissions did v (setCommissions did v d) = setCommissions did v d := by
  unfold setCommissions
  by_cases h : d.deal_id = did <;> simp [h]

/-- A row transformer preserving `lead_id` and `deal_id` commutes with
selecting the latest deal of a lead. -/
theorem latestDealFor_map (deals : List Deal) (lid : Int) (f : Deal → Deal)
    (hlid : ∀ d, (f d).lead_id = d.lead_id)
    (hdid : ∀ d, (f d).deal_id = d.deal_id) :
    latestDealFor (deals.map f) lid
      = Option.map f (latestDealFor deals lid) := by
  unfold latestDealFor
  have aux : ∀ (l : List Deal) (acc : Option Deal),
      (l.map f).foldl (fun acc d =>
          if d.lead_id = lid then
            match acc with
            | none => some d
            | some a => if a.deal_id < d.deal_id then some d else some a
          else acc) (Option.map f acc)
        = Option.map f (l.foldl (fun acc d =>
            if d.lead_id = lid then
              match acc with
              | none => some d
              | some a => if a.deal_id < d.deal_id then some d else some a
            else acc) acc) := by
    intro l
    induction l with
    | nil => intro acc; rfl
    | cons d tl ih =>
      intro acc
      simp only [List.map_cons, List.foldl_cons]
      have hstep : (if (f d).lead_id = lid then
            match Option.map f acc with
            | none => some (f d)
            | some a => if a.deal_id < (f d).deal_id then some (f d) else some a
          else Option.map f acc)
          = Option.map f (if d.lead_id = lid then
              match acc with
              | none => some d
              | some a => if a.deal_id < d.deal_id then some d else some a
            else acc) := by
        rw [hlid d]
        by_cases h : d.lead_id = lid
        · simp only [h, if_true]
          cases acc with
          | none => rfl
          | some a =>
            simp only [Option.map_some']
            rw [hdid d, hdid a]
            by_cases h2 : a.deal_id < d.deal_id <;> simp [h2]
        · simp [h]
      rw [hstep]
      exact ih _
  exact aux deals none

/-- C8: Invoking the Production Complete workflow twice for the same lead
with an unchanged most-recent deal value stores identical commission amounts
both times: the second invocation recomputes the same four numbers from the
unchanged deal value and overwrites the rows with them, leaving the store of
the first invocation exactly as it was. -/
theorem c8_production_complete_idempotent (st : Store) (ld : LeadData)
    (deal : Deal)
    (hdeal : latestDealFor st.deals ld.lead.lead_id = some deal) :
    (calculateAndNotifyCommissions
        (calculateAndNotifyCommissions st ld).1 ld).1
      = (calculateAndNotifyCommissions st ld).1 := by
  have h1 := calc_commissions_fst st ld deal hdeal
  have h2 : latestDealFor ((calculateAndNotifyCommissions st ld).1).deals
      ld.lead.lead_id
      = some (setCommissions deal.deal_id deal.deal_value deal) := by
    rw [h1]
    show latestDealFor
      (st.deals.map (setCommissions deal.deal_id deal.deal_value))
      ld.lead.lead_id = _
    rw [latestDealFor_map st.deals ld.lead.lead_id
      (setCommissions deal.deal_id deal.deal_value)
      (fun d => setCommissions_lead_id deal.deal_id deal.deal_value d)
      (fun d => setCommissions_deal_id deal.deal_id deal.deal_value d), hdeal]
    rfl
  have h3 := calc_commissions_fst (calculateAndNotifyCommissions st ld).1 ld
    (setCommissions deal.deal_id deal.deal_value deal) h2
  rw [h3, h1]
  simp only [setCommissions_deal_id, setCommissions_deal_value]
  congr 1
  show (st.deals.map (setCommissions deal.deal_id deal.deal_value)).map
      (setCommissions deal.deal_id deal.deal_value)
    = st.deals.map (setCommissions deal.deal_id deal.deal_value)
  rw [List.map_map]
  refine List.map_congr_left ?_
  intro a _
  exact setCommissions_idem deal.deal_id deal.deal_value a

/-- Witness for C8: running the Production Complete workflow twice on the
sample store leaves the store of the first run unchanged. -/
theorem c8_production_complete_idempotent_witness :
    (calculateAndNotifyCommissions
        (calculateAndNotifyCommissions sampleStore sampleLeadData).1
        sampleLeadData).1
      = (calculateAndNotifyCommissions sampleStore sampleLeadData).1 :=
  c8_production_complete_idempotent sampleStore sampleLeadData sampleDeal rfl

/-- C9: In the Production Complete workflow, the manager recipient falls back
to the `smtp_email` config value when the `manager_email` key is absent; when
no truthy recipient resolves, the email and Discord notifications are
skipped, but the four commission amounts are still persisted onto the latest
deal row. -/
theorem c9_manager_fallback_persist (st : Store) (ld : LeadData)
    (deal d' : Deal)
    (hdeal : latestDealFor st.deals ld.lead.lead_id = some deal)
    (hmgr : truthy (managerRecipient st) = false)
    (hmem : d' ∈ (calculateAndNotifyCommissions st ld).1.deals)
    (hid : d'.deal_id = deal.deal_id) :
    (configGet st "manager_email" = none →
       managerRecipient st = configGet st "smtp_email")
    ∧ (calculateAndNotifyCommissions st ld).2 = []
    ∧ d'.commission_lead_gen = some (deal.deal_value * (8/100))
    ∧ d'.commission_closer = some (deal.deal_value * (10/100))
    ∧ d'.commission_producer = some (deal.deal_value * (8/100))
    ∧ d'.total_commission = some (deal.deal_value * (26/100)) := by
  refine ⟨?_, ?_, ?_⟩
  · intro h
    simp [managerRecipient, h]
  · unfold calculateAndNotifyCommissions
    rw [hdeal]
    simp [hmgr]
  · rw [calc_commissions_fst st ld deal hdeal] at hmem
    exact setCommissions_mem st.deals deal.deal_id deal.deal_value d' hmem hid

/-- Witness for C9 at the store with no config at all: neither `manager_email`
nor `smtp_email` resolves, yet the commissions are stored. -/
theorem c9_manager_fallback_persist_witness :
    (configGet bareStore "manager_email" = none →
       managerRecipient bareStore = configGet bareStore "smtp_email")
    ∧ (calculateAndNotifyCommissions bareStore sampleLeadData).2 = []
    ∧ (setCommissions sampleDeal.deal_id sampleDeal.deal_value
        sampleDeal).commission_lead_gen = some (sampleDeal.deal_value * (8/100))
    ∧ (setCommissions sampleDeal.deal_id sampleDeal.deal_value
        sampleDeal).commission_closer = some (sampleDeal.deal_value * (10/100))
    ∧ (setCommissions sampleDeal.deal_id sampleDeal.deal_value
        sampleDeal).commission_producer = some (sampleDeal.deal_value * (8/100))
    ∧ (setCommissions sampleDeal.deal_id sampleDeal.deal_value
        sampleDeal).total_commission = some (sampleDeal.deal_value * (26/100)) :=
  c9_manager_fallback_persist bareStore sampleLeadData sampleDeal
    (setCommissions sampleDeal.deal_id sampleDeal.deal_value sampleDeal)
    rfl rfl
    (by rw [calc_commissions_fst bareStore sampleLeadData sampleDeal rfl]
        simp [bareStore])
    rfl

/-- A string accepted by `pythonInt` is truthy. -/
theorem truthy_of_pythonInt (s : String) (n : Int) (h : pythonInt s = some n) :
    truthy (some s) = true := by
  unfold truthy
  rcases eq_or_ne s "" with rfl | hne
  · exact absurd h (by simp [pythonInt, digitsVal])
  · simp [hne]

/-- `handle_payment_received` results in the store with the deal marked Paid
and the lead advanced to Production Started. -/
theorem handle_payment_received_fst (st : Store) (ln dn : Int) :
    (handle_payment_received st ln dn).1
      = { st with
          deals := st.deals.map (fun d =>
            if d.deal_id = dn then { d with payment_status := "Paid" } else d),
          leads := st.leads.map (fun l =>
            if l.lead_id = ln then { l with lead_status := "Production Started" }
            else l) } := by
  unfold handle_payment_received
  dsimp only
  split <;> simp [notify_producer_fst]

/-- A deal row carrying the target id after the Paid update is Paid. -/
theorem paid_status_mem (deals : List Deal) (dn : Int) (d' : Deal)
    (hmem : d' ∈ deals.map (fun d =>
      if d.deal_id = dn then { d with payment_status := "Paid" } else d))
    (hid : d'.deal_id = dn) :
    d'.payment_status = "Paid" := by
  rcases List.mem_map.mp hmem with ⟨a, _, rfl⟩
  by_cases h : a.deal_id = dn
  · simp [h]
  · rw [if_neg h] at hid ⊢
    exact absurd hid h

/-- A lead row carrying the target id after the status update is in
Production Started. -/
theorem started_status_mem (leads : List Lead) (ln : Int) (l' : Lead)
    (hmem : l' ∈ leads.map (fun l =>
      if l.lead_id = ln then { l with lead_status := "Production Started" }
      else l))
    (hid : l'.lead_id = ln) :
    l'.lead_status = "Production Started" := by
  rcases List.mem_map.mp hmem with ⟨a, _, rfl⟩
  by_cases h : a.lead_id = ln
  · simp [h]
  · rw [if_neg h] at hid ⊢
    exact absurd hid h

/-- The Production Started workflow never calls the Make.com forward. -/
theorem notify_producer_no_forward (st : Store) (ld : LeadData) :
    EffectKind.forward ∉ (notifyProducerNewProject st ld).2.map Effect.kind := by
  unfold notifyProducerNewProject
  by_cases h : truthy ld.producer_email <;> simp [h, Effect.kind]

/-- `handle_payment_received` never calls the Make.com forward. -/
theorem handle_payment_received_no_forward (st : Store) (ln dn : Int) :
    EffectKind.forward ∉ (handle_payment_received st ln dn).2.map Effect.kind := by
  unfold handle_payment_received
  dsimp only
  split
  · exact notify_producer_no_forward _ _
  · simp

/-- C3: A `payment_intent.succeeded` ingress event whose metadata carries the
deal and lead ids makes the handler run `handle_payment_received` and return
true: that deal's `payment_status` becomes Paid, that lead's status becomes
Production Started, and the Production Started handler is invoked directly —
no Make.com forward is attempted and the generic `handle_status_change`
dispatcher (whose every run ends in a forward) is bypassed. -/
theorem c3_stripe_succeeded (st : Store) (p : StripePayload) (ds ls : String)
    (dn ln : Int) (d' : Deal) (l' : Lead)
    (htype : p.type = some "payment_intent.succeeded")
    (hd : dictGet (stripeMetadata p) "deal_id" = some ds)
    (hl : dictGet (stripeMetadata p) "lead_id" = some ls)
    (hdn : pythonInt ds = some dn) (hln : pythonInt ls = some ln)
    (hd'mem : d' ∈ (handle_payment_received st ln dn).1.deals)
    (hd'id : d'.deal_id = dn)
    (hl'mem : l' ∈ (handle_payment_received st ln dn).1.leads)
    (hl'id : l'.lead_id = ln) :
    handle_stripe_webhook st p
      = ((handle_payment_received st ln dn).1,
         (handle_payment_received st ln dn).2, true)
    ∧ d'.payment_status = "Paid"
    ∧ l'.lead_status = "Production Started"
    ∧ EffectKind.forward
        ∉ (handle_payment_received st ln dn).2.map Effect.kind := by
  refine ⟨?_, ?_, ?_, handle_payment_received_no_forward st ln dn⟩
  · simp [handle_stripe_webhook, htype, hd, hl, hdn, hln,
      truthy_of_pythonInt ds dn hdn, truthy_of_pythonInt ls ln hln]
  · rw [handle_payment_received_fst] at hd'mem
    exact paid_status_mem st.deals dn d' hd'mem hd'id
  · rw [handle_payment_received_fst] at hl'mem
    exact started_status_mem st.leads ln l' hl'mem hl'id

/-- Witness for C3: the succeeded event for deal 7 / lead 3 on the sample
store. -/
theorem c3_stripe_succeeded_witness :
    handle_stripe_webhook sampleStore stripeSucceededPayload
      = ((handle_payment_received sampleStore 3 7).1,
         (handle_payment_received sampleStore 3 7).2, true)
    ∧ sampleDealPaid.payment_status = "Paid"
    ∧ sampleLeadStarted.lead_status = "Production Started"
    ∧ EffectKind.forward
        ∉ (handle_payment_received sampleStore 3 7).2.map Effect.kind :=
  c3_stripe_succeeded sampleStore stripeSucceededPayload "7" "3" 7 3
    sampleDealPaid sampleLeadStarted rfl rfl rfl rfl rfl
    (by rw [handle_payment_received_fst]
        simp [sampleStore, sampleDealPaid, sampleDeal])
    rfl
    (by rw [handle_payment_received_fst]
        simp [sampleStore, sampleLeadStarted, sampleLead])
    rfl

/-- C6: An ingress payload with an unrecognized event type, or with its
required metadata / data fields missing, makes both webhook entry points
return false with the store unchanged and no send attempted (the handlers
are total, so nothing is raised). -/
theorem c6_malformed_ingress (env : StripeEnv) (st : Store)
    (p1 p2 p3 : StripePayload) (q1 q2 q3 : MakePayload) :
    (p1.type ≠ some "payment_intent.succeeded" →
      p1.type ≠ some "payment_intent.payment_failed" →
      handle_stripe_webhook st p1 = (st, [], false))
    ∧ (p2.type = some "payment_intent.succeeded" →
        (truthy (dictGet (stripeMetadata p2) "deal_id")
          && truthy (dictGet (stripeMetadata p2) "lead_id")) = false →
        handle_stripe_webhook st p2 = (st, [], false))
    ∧ (p3.type = some "payment_intent.payment_failed" →
        (truthy (dictGet (stripeMetadata p3) "deal_id")
          && truthy (dictGet (stripeMetadata p3) "lead_id")) = false →
        handle_stripe_webhook st p3 = (st, [], false))
    ∧ (q1.event_type ≠ some "producer_confirmation" →
        q1.event_type ≠ some "manual_status_update" →
        handle_make_webhook env st q1 = (st, [], false))
    ∧ (q2.event_type = some "producer_confirmation" →
        truthy (q2.data.getD {}).lead_id = false →
        handle_make_webhook env st q2 = (st, [], false))
    ∧ (q3.event_type = some "manual_status_update" →
        (truthy (q3.data.getD {}).lead_id
          && truthy (q3.data.getD {}).new_status) = false →
        handle_make_webhook env st q3 = (st, [], false)) := by
  refine ⟨?_, ?_, ?_, ?_, ?_, ?_⟩
  · intro h1 h2
    simp [handle_stripe_webhook, h1, h2]
  · intro h1 h2
    simp [handle_stripe_webhook, h1, h2]
  · intro h1 h2
    simp [handle_stripe_webhook, h1, h2]
  · intro h1 h2
    simp [handle_make_webhook, h1, h2]
  · intro h1 h2
    simp [handle_make_webhook, h1, h2]
  · intro h1 h2
    simp [handle_make_webhook, h1, h2]

/-- Witness for C6: an unknown Stripe event, a succeeded event with no
metadata, a failed event with empty metadata, an unknown Make.com event, a
producer confirmation without a lead id and a manual status update without a
new status, all on the sample store. -/
theorem c6_malformed_ingress_witness :
    (stripeUnknownPayload.type ≠ some "payment_intent.succeeded" →
      stripeUnknownPayload.type ≠ some "payment_intent.payment_failed" →
      handle_stripe_webhook sampleStore stripeUnknownPayload
        = (sampleStore, [], false))
    ∧ (stripeNoMetaPayload.type = some "payment_intent.succeeded" →
        (truthy (dictGet (stripeMetadata stripeNoMetaPayload) "deal_id")
          && truthy (dictGet (stripeMetadata stripeNoMetaPayload) "lead_id"))
          = false →
        handle_stripe_webhook sampleStore stripeNoMetaPayload
          = (sampleStore, [], false))
    ∧ (stripeFailedNoMetaPayload.type = some "payment_intent.payment_failed" →
        (truthy (dictGet (stripeMetadata stripeFailedNoMetaPayload) "deal_id")
          && truthy (dictGet (stripeMetadata stripeFailedNoMetaPayload) "lead_id"))
          = false →
        handle_stripe_webhook sampleStore stripeFailedNoMetaPayload
          = (sampleStore, [], false))
    ∧ (makeUnknownPayload.event_type ≠ some "producer_confirmation" →
        makeUnknownPayload.event_type ≠ some "manual_status_update" →
        handle_make_webhook sampleEnv sampleStore makeUnknownPayload
          = (sampleStore, [], false))
    ∧ (makeNoLeadPayload.event_type = some "producer_confirmation" →
        truthy (makeNoLeadPayload.data.getD {}).lead_id = false →
        handle_make_webhook sampleEnv sampleStore makeNoLeadPayload
          = (sampleStore, [], false))
    ∧ (makeNoStatusPayload.event_type = some "manual_status_update" →
        (truthy (makeNoStatusPayload.data.getD {}).lead_id
          && truthy (makeNoStatusPayload.data.getD {}).new_status) = false →
        handle_make_webhook sampleEnv sampleStore makeNoStatusPayload
          = (sampleStore, [], false)) :=
  c6_malformed_ingress sampleEnv sampleStore stripeUnknownPayload
    stripeNoMetaPayload stripeFailedNoMetaPayload makeUnknownPayload
    makeNoLeadPayload makeNoStatusPayload

/-- C10: Returning false from the Stripe ingress does not imply the store is
unchanged: a `payment_intent.payment_failed` event whose metadata carries a
truthy deal_id and a truthy lead_id that is not a decimal integer string
commits the deal's `payment_status = 'Failed'` update first, then fails the
`int(lead_id)` conversion, so the handler returns false with the deals table
mutated and no activity-log entry appended. -/
theorem c10_failed_mutates_despite_false (st : Store) (p : StripePayload)
    (ds ls : String)
    (htype : p.type = some "payment_intent.payment_failed")
    (hd : dictGet (stripeMetadata p) "deal_id" = some ds) (hds : ds ≠ "")
    (hl : dictGet (stripeMetadata p) "lead_id" = some ls) (hls : ls ≠ "")
    (hparse : pythonInt ls = none) :
    handle_stripe_webhook st p
      = ({ st with deals := st.deals.map (fun d =>
            if sqlIdMatch d.deal_id ds then { d with payment_status := "Failed" }
            else d) }, [], false)
    ∧ (handle_stripe_webhook st p).2.2 = false
    ∧ (handle_stripe_webhook st p).1.activity_log = st.activity_log
    ∧ (handle_stripe_webhook st p).1.leads = st.leads := by
  have hmain : handle_stripe_webhook st p
      = ({ st with deals := st.deals.map (fun d =>
            if sqlIdMatch d.deal_id ds then { d with payment_status := "Failed" }
            else d) }, [], false) := by
    simp [handle_stripe_webhook, htype, hd, hl, hparse, truthy, hds, hls]
  refine ⟨hmain, ?_, ?_, ?_⟩ <;> rw [hmain]

/-- Witness for C10: the failed event with deal_id "7" and lead_id "abc" on
the sample store — deal 7 is marked Failed although the result is false. -/
theorem c10_failed_mutates_despite_false_witness :
    handle_stripe_webhook sampleStore stripeFailedBadLeadPayload
      = ({ sampleStore with deals := sampleStore.deals.map (fun d =>
            if sqlIdMatch d.deal_id "7" then { d with payment_status := "Failed" }
            else d) }, [], false)
    ∧ (handle_stripe_webhook sampleStore stripeFailedBadLeadPayload).2.2 = false
    ∧ (handle_stripe_webhook sampleStore stripeFailedBadLeadPayload).1.activity_log
        = sampleStore.activity_log
    ∧ (handle_stripe_webhook sampleStore stripeFailedBadLeadPayload).1.leads
        = sampleStore.leads :=
  c10_failed_mutates_despite_false sampleStore stripeFailedBadLeadPayload
    "7" "abc" rfl rfl (by decide) rfl (by decide) rfl

end CRM
